import Mathlib

/-!
Verification of the strelka read-key component
(`strelka/lib/starling_common/starling_read_key.cpp`): a shallow
embedding of the stream-insertion operator for `read_key`, together with
the value-type scaffolding (`make`, `equals`, `compare`, `render`)
described by the specification, and proofs of the specified properties.

The provided source file contains only the stream-insertion operator

    std::ostream&
    operator<<(std::ostream& os, const read_key& rk) {
        os << rk.qname() << '/' << rk.read_no();
        return os;
    }

The header `starling_read_key.hh` that declares the `read_key` class, its
accessors and the read-number encoding is not part of the provided source,
so those parts are modelled from the specification, as flagged on each
definition below.
-/

namespace StarlingReadKey

/-- Modelled from the spec: the header `starling_read_key.hh` declaring
the read-number tag is missing from the provided source; the spec fixes
exactly three variants. -/
inductive ReadNo : Type
  | UNKNOWN_OR_UNPAIRED : ReadNo
  | FIRST_MATE : ReadNo
  | SECOND_MATE : ReadNo
deriving DecidableEq, Repr

/-- Modelled from the spec: the integer encoding of the read-number tag,
fixed as `UNKNOWN_OR_UNPAIRED -> 0`, `FIRST_MATE -> 1`,
`SECOND_MATE -> 2`. -/
def ReadNo.toInt : ReadNo → Int
  | ReadNo.UNKNOWN_OR_UNPAIRED => 0
  | ReadNo.FIRST_MATE => 1
  | ReadNo.SECOND_MATE => 2

/-- Modelled from the spec: the `read_key` value type (its declaring
header is missing from the provided source): an immutable query name plus
a read-number tag. The accessors `qname()` and `read_no()` of the C++
class are the projections. -/
structure read_key : Type where
  qname : String
  read_no : ReadNo
deriving DecidableEq, Repr

/-- Modelled from the spec: the single error kind of the component,
raised only at construction time. -/
inductive ReadKeyError : Type
  | InvalidArgument : ReadKeyError
deriving DecidableEq, Repr

/-- Modelled from the spec: `make(qname, read_no)` succeeds for any
non-empty `qname` and any variant, and fails with `InvalidArgument` when
`qname` is empty. -/
def make (q : String) (rn : ReadNo) : Except ReadKeyError read_key :=
  if q = "" then Except.error ReadKeyError.InvalidArgument
  else Except.ok (read_key.mk q rn)

/-- Modelled from the spec: structural equality on `read_key`
(byte-equal `qname` and the same `read_no` variant). -/
def equals (a b : read_key) : Bool :=
  decide (a.qname = b.qname) && decide (a.read_no = b.read_no)

/-- Three-way lexicographic comparison of character lists, by code point
(for valid UTF-8 data this coincides with byte-wise comparison of the
encoded strings, the order used by `std::string`). -/
def cmpChars : List Char → List Char → Ordering
  | [], [] => Ordering.eq
  | [], _ :: _ => Ordering.lt
  | _ :: _, [] => Ordering.gt
  | a :: as, b :: bs =>
    if a < b then Ordering.lt
    else if b < a then Ordering.gt
    else cmpChars as bs

/-- Three-way comparison of query names (lexicographic). -/
def cmpQname (a b : String) : Ordering :=
  cmpChars a.data b.data

/-- Three-way comparison of integers. -/
def cmpInt (a b : Int) : Ordering :=
  if a < b then Ordering.lt else if b < a then Ordering.gt else Ordering.eq

/-- Modelled from the spec: the total order on `read_key`, lexicographic
on the pair `(qname, read_no)` with `read_no` compared by its
small-integer encoding. -/
def compare (a b : read_key) : Ordering :=
  (cmpQname a.qname b.qname).then (cmpInt a.read_no.toInt b.read_no.toInt)

/-- Shallow model of a `std::ostream`: a stream identity together with
the text accumulated on the stream so far. The identity stands for the
reference identity of the C++ stream object, so that "returns the same
stream" is statable. -/
structure OStream : Type where
  sid : Nat
  buf : String
deriving DecidableEq, Repr

/-- Model of `os << s` for a string value: appends the string to the
stream buffer, same stream. -/
def insertString (os : OStream) (s : String) : OStream :=
  OStream.mk os.sid (os.buf ++ s)

/-- Model of `os << c` for a single character: appends that one
character, same stream. -/
def insertChar (os : OStream) (c : Char) : OStream :=
  OStream.mk os.sid (os.buf ++ String.singleton c)

/-- Model of `os << i` for an `int` value: appends the ordinary decimal
rendering of the integer (minus sign for negatives, no padding), same
stream. -/
def insertInt (os : OStream) (i : Int) : OStream :=
  OStream.mk os.sid (os.buf ++ toString i)

/-- The body of `operator<<` from `starling_read_key.cpp`, at the level
of the two values it actually inserts: the result of `rk.qname()` and
the integer result of `rk.read_no()`. It performs the three chained
insertions `os << qname << '/' << read_no` and returns the stream. -/
def opOutput (os : OStream) (q : String) (i : Int) : OStream :=
  insertInt (insertChar (insertString os q) '/') i

/-- The stream-insertion operator
`operator<<(std::ostream& os, const read_key& rk)` from
`starling_read_key.cpp`: inserts `rk.qname()`, a slash, and
`rk.read_no()`, and returns the stream it received. -/
def ostream_insert (os : OStream) (rk : read_key) : OStream :=
  opOutput os rk.qname rk.read_no.toInt

/-- The spec's `render(rk)`: the text that the stream-insertion operator
from the source produces, i.e. the contents a fresh stream holds after
`os << rk`. -/
def render (rk : read_key) : String :=
  (ostream_insert (OStream.mk 0 "") rk).buf

/-- The spec's words for the canonical rendering, used as the reference
side of the rendering claims: `qname + "/" + str(read_no_as_integer)`. -/
def renderSpec (rk : read_key) : String :=
  rk.qname ++ "/" ++ toString rk.read_no.toInt

/-- Explicit state-passing form of the stream-insertion operator: the C++
operator takes the key by const reference and contains no write to it, so
the translation returns the key component of the state unchanged next to
the updated stream. -/
def ostream_insertSt (os : OStream) (rk : read_key) : OStream × read_key :=
  (ostream_insert os rk, rk)

/-- Explicit state-passing form of `equals`: no write to either key. -/
def equalsSt (a b : read_key) : Bool × read_key × read_key :=
  (equals a b, a, b)

/-- Explicit state-passing form of `compare`: no write to either key. -/
def compareSt (a b : read_key) : Ordering × read_key × read_key :=
  (compare a b, a, b)

/-- Explicit state-passing form of `render`: no write to the key. -/
def renderSt (rk : read_key) : String × read_key :=
  (render rk, rk)

/-! ### Helper lemmas -/

/-- The integer encoding of the read-number tag is injective. -/
theorem ReadNo.toInt_inj (x y : ReadNo) : x.toInt = y.toInt ↔ x = y := by
  cases x <;> cases y <;> decide

/-- The buffer after the operator body: the old contents followed by the
qname, the slash, and the decimal integer. -/
theorem opOutput_buf (os : OStream) (q : String) (i : Int) :
    (opOutput os q i).buf = os.buf ++ (q ++ "/" ++ toString i) := by
  show ((os.buf ++ q) ++ "/") ++ toString i = os.buf ++ (q ++ "/" ++ toString i)
  simp [String.append_assoc]

/-- The stream identity is untouched by the operator body. -/
theorem opOutput_sid (os : OStream) (q : String) (i : Int) :
    (opOutput os q i).sid = os.sid := rfl

/-- `render` in closed form: the qname, a slash, and the decimal encoding
of the read number. -/
theorem render_eq (rk : read_key) :
    render rk = rk.qname ++ "/" ++ toString rk.read_no.toInt := by
  show (opOutput (OStream.mk 0 "") rk.qname rk.read_no.toInt).buf = _
  rw [opOutput_buf]
  exact String.empty_append _

/-- Inserting a key appends exactly its rendering to the stream buffer. -/
theorem ostream_insert_buf (os : OStream) (rk : read_key) :
    (ostream_insert os rk).buf = os.buf ++ render rk := by
  rw [render_eq]
  exact opOutput_buf os rk.qname rk.read_no.toInt

/-- Inserting a key leaves the stream identity unchanged. -/
theorem ostream_insert_sid (os : OStream) (rk : read_key) :
    (ostream_insert os rk).sid = os.sid := rfl

/-- Fully right-associated form of the buffer after inserting a key. -/
theorem insert_buf_eq (os : OStream) (rk : read_key) :
    (ostream_insert os rk).buf
      = os.buf ++ rk.qname ++ "/" ++ toString rk.read_no.toInt := by
  simpa [String.append_assoc] using opOutput_buf os rk.qname rk.read_no.toInt

/-- `cmpChars` returns `eq` exactly on equal lists. -/
theorem cmpChars_eq_iff : ∀ as bs : List Char, cmpChars as bs = Ordering.eq ↔ as = bs
  | [], [] => by simp [cmpChars]
  | [], _ :: _ => by simp [cmpChars]
  | _ :: _, [] => by simp [cmpChars]
  | a :: as, b :: bs => by
    simp only [cmpChars]
    by_cases h1 : a < b
    · simp [h1, ne_of_lt h1]
    · by_cases h2 : b < a
      · simp [h1, h2, ne_of_gt h2]
      · have hab : a = b := le_antisymm (not_lt.mp h2) (not_lt.mp h1)
        subst hab
        simp [h1, cmpChars_eq_iff as bs]

/-- `cmpChars` is oriented: swapping the arguments swaps the verdict. -/
theorem cmpChars_swap : ∀ as bs : List Char, (cmpChars as bs).swap = cmpChars bs as
  | [], [] => rfl
  | [], _ :: _ => rfl
  | _ :: _, [] => rfl
  | a :: as, b :: bs => by
    simp only [cmpChars]
    by_cases h1 : a < b
    · have h2 : ¬ b < a := lt_asymm h1
      simp [h1, h2, Ordering.swap]
    · by_cases h2 : b < a
      · simp [h1, h2, Ordering.swap]
      · have hab : a = b := le_antisymm (not_lt.mp h2) (not_lt.mp h1)
        subst hab
        simp [h1, cmpChars_swap as bs]

/-- `cmpChars` verdicts `lt` compose transitively. -/
theorem cmpChars_lt_trans : ∀ as bs cs : List Char,
    cmpChars as bs = Ordering.lt → cmpChars bs cs = Ordering.lt →
    cmpChars as cs = Ordering.lt
  | [], [], _ => by intro h _; simp [cmpChars] at h
  | [], _ :: _, [] => by intro _ h; simp [cmpChars] at h
  | [], _ :: _, _ :: _ => by intro _ _; simp [cmpChars]
  | _ :: _, [], _ => by intro h _; simp [cmpChars] at h
  | _ :: _, _ :: _, [] => by intro _ h; simp [cmpChars] at h
  | a :: as, b :: bs, c :: cs => by
    intro h1 h2
    simp only [cmpChars] at h1 h2 ⊢
    by_cases hab : a < b
    · by_cases hbc : b < c
      · simp [lt_trans hab hbc]
      · by_cases hcb : c < b
        · simp [hbc, hcb] at h2
        · have hbceq : b = c := le_antisymm (not_lt.mp hcb) (not_lt.mp hbc)
          subst hbceq
          simp [hab]
    · by_cases hba : b < a
      · simp [hab, hba] at h1
      · have habeq : a = b := le_antisymm (not_lt.mp hba) (not_lt.mp hab)
        subst habeq
        simp only [lt_irrefl, if_false] at h1
        by_cases hac : a < c
        · simp [hac]
        · by_cases hca : c < a
          · simp [hac, hca] at h2
          · have haceq : a = c := le_antisymm (not_lt.mp hca) (not_lt.mp hac)
            subst haceq
            simp only [lt_irrefl, if_false] at h2 ⊢
            exact cmpChars_lt_trans as bs cs h1 h2

/-- `cmpQname` returns `eq` exactly on equal strings. -/
theorem cmpQname_eq_iff (a b : String) : cmpQname a b = Ordering.eq ↔ a = b := by
  rw [cmpQname, cmpChars_eq_iff]
  exact ⟨String.ext, congrArg String.data⟩

/-- `cmpInt` returns `lt` exactly when the first argument is smaller. -/
theorem cmpInt_lt (a b : Int) : cmpInt a b = Ordering.lt ↔ a < b := by
  simp only [cmpInt]
  split_ifs <;> simp <;> omega

/-- `cmpInt` returns `eq` exactly on equal integers. -/
theorem cmpInt_eq_iff (a b : Int) : cmpInt a b = Ordering.eq ↔ a = b := by
  simp only [cmpInt]
  split_ifs <;> simp <;> omega

/-- `cmpInt` is oriented: swapping the arguments swaps the verdict. -/
theorem cmpInt_swap (a b : Int) : (cmpInt a b).swap = cmpInt b a := by
  simp only [cmpInt]
  split_ifs <;> first | rfl | omega

/-- `compare` is oriented: swapping the arguments swaps the verdict. -/
theorem compare_swap (a b : read_key) : (compare a b).swap = compare b a := by
  simp only [compare, Ordering.swap_then, cmpQname, cmpChars_swap, cmpInt_swap]

/-- Antisymmetry of `compare`, phrased through the swap. -/
theorem compare_lt_iff_gt (a b : read_key) :
    compare a b = Ordering.lt ↔ compare b a = Ordering.gt := by
  rw [← compare_swap a b]
  cases h : compare a b <;> decide

/-- Transitivity of the strict part of `compare`. -/
theorem compare_lt_trans (a b c : read_key) (h1 : compare a b = Ordering.lt)
    (h2 : compare b c = Ordering.lt) : compare a c = Ordering.lt := by
  simp only [compare, Ordering.then_eq_lt] at h1 h2 ⊢
  rcases h1 with h1 | ⟨h1e, h1i⟩ <;> rcases h2 with h2 | ⟨h2e, h2i⟩
  · exact Or.inl (cmpChars_lt_trans _ _ _ h1 h2)
  · have hd : b.qname = c.qname := (cmpQname_eq_iff _ _).mp h2e
    exact Or.inl (by rw [cmpQname, ← hd]; exact h1)
  · have hd : a.qname = b.qname := (cmpQname_eq_iff _ _).mp h1e
    exact Or.inl (by rw [cmpQname, hd]; exact h2)
  · have hd1 : a.qname = b.qname := (cmpQname_eq_iff _ _).mp h1e
    have hd2 : b.qname = c.qname := (cmpQname_eq_iff _ _).mp h2e
    refine Or.inr ⟨(cmpQname_eq_iff _ _).mpr (hd1.trans hd2), ?_⟩
    have l1 : a.read_no.toInt < b.read_no.toInt := (cmpInt_lt _ _).mp h1i
    have l2 : b.read_no.toInt < c.read_no.toInt := (cmpInt_lt _ _).mp h2i
    exact (cmpInt_lt _ _).mpr (l1.trans l2)

/-! ### Claims -/

/-- C1: for every valid `read_key` built by `make` from a non-empty qname
and a valid read-number variant, `render` produces exactly the string
`qname ++ "/" ++` the decimal encoding of the read number — a single
slash separator and nothing else — and agrees with the spec-worded
rendering `renderSpec`. -/
theorem C1_render_of_make (q : String) (rn : ReadNo) (rk : read_key)
    (h : make q rn = Except.ok rk) :
    render rk = q ++ "/" ++ toString rn.toInt ∧ render rk = renderSpec rk := by
  by_cases hq : q = ""
  · rw [make, if_pos hq] at h
    exact absurd h (by simp)
  · rw [make, if_neg hq] at h
    injection h with h2
    subst h2
    exact ⟨render_eq (read_key.mk q rn), render_eq (read_key.mk q rn)⟩

/-- Witness for C1 at a concrete input. -/
theorem C1_render_of_make_witness :
    render (read_key.mk "SRR1" ReadNo.FIRST_MATE)
      = "SRR1" ++ "/" ++ toString ReadNo.FIRST_MATE.toInt :=
  (C1_render_of_make "SRR1" ReadNo.FIRST_MATE (read_key.mk "SRR1" ReadNo.FIRST_MATE) rfl).1

/-- C2: the integer encoding is fixed as `UNKNOWN_OR_UNPAIRED -> 0`,
`FIRST_MATE -> 1`, `SECOND_MATE -> 2`, and for qname `"SRR000001.123"`
the three variants render to `"SRR000001.123/0"`, `"SRR000001.123/1"`
and `"SRR000001.123/2"` respectively. -/
theorem C2_fixed_encoding :
    ReadNo.UNKNOWN_OR_UNPAIRED.toInt = 0
    ∧ ReadNo.FIRST_MATE.toInt = 1
    ∧ ReadNo.SECOND_MATE.toInt = 2
    ∧ render (read_key.mk "SRR000001.123" ReadNo.UNKNOWN_OR_UNPAIRED) = "SRR000001.123/0"
    ∧ render (read_key.mk "SRR000001.123" ReadNo.FIRST_MATE) = "SRR000001.123/1"
    ∧ render (read_key.mk "SRR000001.123" ReadNo.SECOND_MATE) = "SRR000001.123/2" := by
  decide

/-- C3: `make` succeeds, returning the key with the given fields, for
every non-empty qname and every variant; it fails exactly when the qname
is empty, and the only error kind it can return is `InvalidArgument`. -/
theorem C3_make_validation (q : String) (rn : ReadNo) :
    (q ≠ "" → make q rn = Except.ok (read_key.mk q rn))
    ∧ (make q rn = Except.error ReadKeyError.InvalidArgument ↔ q = "")
    ∧ (∀ e : ReadKeyError, make q rn = Except.error e →
        e = ReadKeyError.InvalidArgument) := by
  refine ⟨fun h => by rw [make, if_neg h], ?_, fun e _ => by cases e; rfl⟩
  by_cases hq : q = "" <;> simp [make, hq]

/-- Witness for C3 at concrete inputs: a non-empty qname succeeds and the
empty qname fails with `InvalidArgument`. -/
theorem C3_make_validation_witness :
    make "a" ReadNo.FIRST_MATE = Except.ok (read_key.mk "a" ReadNo.FIRST_MATE)
    ∧ make "" ReadNo.FIRST_MATE = Except.error ReadKeyError.InvalidArgument :=
  ⟨(C3_make_validation "a" ReadNo.FIRST_MATE).1 (by decide),
   ((C3_make_validation "" ReadNo.FIRST_MATE).2.1).mpr rfl⟩

/-- C4: `equals` returns `true` exactly when the two keys have byte-equal
qnames and the same read-number variant. -/
theorem C4_equals_structural (a b : read_key) :
    equals a b = true ↔ (a.qname = b.qname ∧ a.read_no = b.read_no) := by
  simp [equals]

/-- Witness for C4 at a concrete input. -/
theorem C4_equals_structural_witness :
    equals (read_key.mk "a" ReadNo.FIRST_MATE) (read_key.mk "a" ReadNo.FIRST_MATE) = true :=
  (C4_equals_structural (read_key.mk "a" ReadNo.FIRST_MATE)
    (read_key.mk "a" ReadNo.FIRST_MATE)).mpr ⟨rfl, rfl⟩

/-- C5: `compare` is a strict total order on `read_key`, lexicographic on
`(qname, read_no)` with `read_no` compared by its integer encoding: it
returns `eq` exactly when `equals` holds, it is antisymmetric (swapping
the arguments turns `lt` into `gt`), its `lt` verdict is transitive, and
every pair of keys is ordered as `lt`, `eq` or `gt`. -/
theorem C5_compare_strict_total_order :
    (∀ a b : read_key, compare a b = Ordering.eq ↔ equals a b = true)
    ∧ (∀ a b : read_key, compare a b = Ordering.lt ↔ compare b a = Ordering.gt)
    ∧ (∀ a b c : read_key, compare a b = Ordering.lt → compare b c = Ordering.lt →
        compare a c = Ordering.lt)
    ∧ (∀ a b : read_key, compare a b = Ordering.lt ∨ compare a b = Ordering.eq ∨
        compare a b = Ordering.gt) := by
  refine ⟨?_, compare_lt_iff_gt, compare_lt_trans, ?_⟩
  · intro a b
    rw [compare, Ordering.then_eq_eq, cmpQname_eq_iff, cmpInt_eq_iff,
      ReadNo.toInt_inj]
    simp [equals]
  · intro a b
    cases h : compare a b
    · exact Or.inl rfl
    · exact Or.inr (Or.inl rfl)
    · exact Or.inr (Or.inr rfl)

/-- Witness for C5: the transitivity component applied at concrete keys. -/
theorem C5_compare_strict_total_order_witness :
    compare (read_key.mk "a" ReadNo.UNKNOWN_OR_UNPAIRED)
      (read_key.mk "a" ReadNo.SECOND_MATE) = Ordering.lt :=
  C5_compare_strict_total_order.2.2.1
    (read_key.mk "a" ReadNo.UNKNOWN_OR_UNPAIRED)
    (read_key.mk "a" ReadNo.FIRST_MATE)
    (read_key.mk "a" ReadNo.SECOND_MATE)
    (by decide) (by decide)

/-- C6: `render` is deterministic: on `equals`-equal keys it yields the
identical string. (In this embedding `render` is a total function of the
key alone, so purity, totality and absence of side effects hold by
construction; the state-passing form is covered by `C7_immutability`.) -/
theorem C6_render_deterministic (a b : read_key) (h : equals a b = true) :
    render a = render b := by
  have h2 : a.qname = b.qname ∧ a.read_no = b.read_no := by
    simpa [equals] using h
  rw [render_eq, render_eq, h2.1, h2.2]

/-- Witness for C6 at concrete equal keys. -/
theorem C6_render_deterministic_witness :
    render (read_key.mk "a" ReadNo.FIRST_MATE) = render (read_key.mk "a" ReadNo.FIRST_MATE) :=
  C6_render_deterministic (read_key.mk "a" ReadNo.FIRST_MATE)
    (read_key.mk "a" ReadNo.FIRST_MATE) (by decide)

/-- C7: a `read_key` is immutable through every operation of the
component: in the state-passing translations of the const-taking C++
operations (stream insertion, `equals`, `compare`, `render`), the key
states coming out are field-for-field the key states going in. -/
theorem C7_immutability (os : OStream) (a b : read_key) :
    ((ostream_insertSt os a).2.qname = a.qname
      ∧ (ostream_insertSt os a).2.read_no = a.read_no)
    ∧ (equalsSt a b).2 = (a, b)
    ∧ (compareSt a b).2 = (a, b)
    ∧ (renderSt a).2 = a :=
  ⟨⟨rfl, rfl⟩, rfl, rfl, rfl⟩

/-- C8: the stream-insertion operator returns the very stream it
received: the stream identity is unchanged, the insertion only appends
the key's rendering to the existing buffer, and a further insertion
chained onto the returned stream keeps appending to that same stream. -/
theorem C8_returns_same_stream (os : OStream) (rk : read_key) (s : String) :
    (ostream_insert os rk).sid = os.sid
    ∧ (ostream_insert os rk).buf = os.buf ++ render rk
    ∧ insertString (ostream_insert os rk) s
        = OStream.mk os.sid (os.buf ++ render rk ++ s) := by
  refine ⟨ostream_insert_sid os rk, ostream_insert_buf os rk, ?_⟩
  simp [insertString, ostream_insert_buf, ostream_insert_sid]

/-- C9: the operator validates nothing: with an empty qname it succeeds
and emits `"/"` followed by the read number, and for every qname it
simply appends `qname ++ "/" ++ read_no` — no qname makes the operator
itself fail. -/
theorem C9_no_qname_validation (os : OStream) (rn : ReadNo) (q : String) :
    (ostream_insert os (read_key.mk "" rn)).buf = os.buf ++ "/" ++ toString rn.toInt
    ∧ (ostream_insert os (read_key.mk q rn)).buf
        = os.buf ++ q ++ "/" ++ toString rn.toInt := by
  refine ⟨?_, insert_buf_eq os (read_key.mk q rn)⟩
  simp [insert_buf_eq, String.append_empty]

/-- C10: the operator body does not restrict the read number to the
encodings 0, 1, 2: for any integer — negative or greater than 2 — the
output is the qname, a slash, and the ordinary decimal rendering of that
integer, as the concrete outputs for -3 and 7 illustrate. -/
theorem C10_any_integer (os : OStream) (q : String) (i : Int) :
    (opOutput os q i).buf = os.buf ++ q ++ "/" ++ toString i
    ∧ (opOutput (OStream.mk 0 "") "q" (-3)).buf = "q/-3"
    ∧ (opOutput (OStream.mk 0 "") "q" 7).buf = "q/7" := by
  refine ⟨?_, by decide, by decide⟩
  simpa [String.append_assoc] using opOutput_buf os q i

end StarlingReadKey
